import Mathlib

/-
Verification of the dpdk-sys C shim of qmonnet/dataplane.

The repository's own code (src/dpdk-sys/c/wrapper.c, wrapper.h) is a thin
boundary over the external DPDK driver: `wrte_errno` returns the driver's
thread-local `rte_errno`, `wrte_eth_rx_burst` / `wrte_eth_tx_burst` delegate
verbatim to `rte_eth_rx_burst` / `rte_eth_tx_burst`, and
`enum wrte_eth_tx_offload : uint64_t` names the driver's transmit-offload
bits.  The driver itself is not part of the repository, so its burst
primitives, its error slot and the numeric flag values are modelled from the
specification; the wrapper functions are embedded directly from wrapper.c.

Buffer handles (struct rte_mbuf * pointers) are modelled as natural numbers;
a caller batch (an array of handles) is a list; machine uint16_t values are
naturals reduced modulo 2^16 at the C ABI boundary.
-/

namespace Dataplane

/-- Width of the uint16_t parameters and return values of the wrappers. -/
def UINT16_MOD : Nat := 65536

/-- Modelled from the spec: the observable state of the external driver layer.
`rxConfigured`/`txConfigured` record which (port, queue) pairs the external
configuration path has set up; `rxPending` is the per-queue list of buffer
handles the NIC has delivered, in delivery order; `txRoom` is the remaining
capacity of the per-queue transmit ring; `txSubmitted` is the list of handles
whose ownership has passed to the driver, in submission order; `errnoSlot`
is the context-local `rte_errno` slot (0 meaning no error). -/
structure DriverState where
  rxConfigured : Nat → Nat → Bool
  txConfigured : Nat → Nat → Bool
  rxPending : Nat → Nat → List Nat
  txRoom : Nat → Nat → Nat
  txSubmitted : Nat → Nat → List Nat
  errnoSlot : Int

/-- Modelled from the spec: the driver's thread-local last-error indicator,
read by wrapper.c's `wrte_errno`.  Reading is a bare access of the slot. -/
def rte_errno (s : DriverState) : Int :=
  s.errnoSlot

/-- Modelled from the spec: the external driver primitive `rte_eth_rx_burst`.
On a configured queue it moves up to `nb_pkts` pending handles into the first
slots of the caller's batch, leaving later slots untouched, advances the
queue's consumption state by that count and never blocks; zero is a normal
result.  On an unconfigured (invalid) identifier the driver layer rejects the
call, returning 0 with no effect.  Returns (actual count, batch contents,
new driver state). -/
def rte_eth_rx_burst (s : DriverState) (port_id queue_id : Nat)
    (rx_pkts : List Nat) (nb_pkts : Nat) : Nat × List Nat × DriverState :=
  if s.rxConfigured port_id queue_id then
    let pending := s.rxPending port_id queue_id
    let n := min pending.length nb_pkts
    (n, pending.take n ++ rx_pkts.drop n,
      { s with rxPending := fun p q =>
          if p = port_id ∧ q = queue_id then pending.drop n else s.rxPending p q })
  else
    (0, rx_pkts, s)

/-- Modelled from the spec: the external driver primitive `rte_eth_tx_burst`.
On a configured queue it takes ownership of the first handles of the caller's
batch, as many as the transmit ring has room for, up to `nb_pkts`; the
caller's array itself is only read, never written.  On an unconfigured
(invalid) identifier the driver layer rejects the call, returning 0 with no
effect.  Returns (actual count, batch contents, new driver state). -/
def rte_eth_tx_burst (s : DriverState) (port_id queue_id : Nat)
    (tx_pkts : List Nat) (nb_pkts : Nat) : Nat × List Nat × DriverState :=
  if s.txConfigured port_id queue_id then
    let n := min (s.txRoom port_id queue_id) nb_pkts
    (n, tx_pkts,
      { s with
        txRoom := fun p q =>
          if p = port_id ∧ q = queue_id then s.txRoom p q - n else s.txRoom p q,
        txSubmitted := fun p q =>
          if p = port_id ∧ q = queue_id then s.txSubmitted p q ++ tx_pkts.take n
          else s.txSubmitted p q })
  else
    (0, tx_pkts, s)

/-- From src/dpdk-sys/c/wrapper.c: `int wrte_errno() { return rte_errno; }`.
The explicit state pair makes the absence of any state change visible. -/
def wrte_errno (s : DriverState) : Int × DriverState :=
  (rte_errno s, s)

/-- From src/dpdk-sys/c/wrapper.c: `wrte_eth_rx_burst` returns
`rte_eth_rx_burst(port_id, queue_id, rx_pkts, nb_pkts)` verbatim. -/
def wrte_eth_rx_burst (s : DriverState) (port_id queue_id : Nat)
    (rx_pkts : List Nat) (nb_pkts : Nat) : Nat × List Nat × DriverState :=
  rte_eth_rx_burst s port_id queue_id rx_pkts nb_pkts

/-- From src/dpdk-sys/c/wrapper.c: `wrte_eth_tx_burst` returns
`rte_eth_tx_burst(port_id, queue_id, tx_pkts, nb_pkts)` verbatim. -/
def wrte_eth_tx_burst (s : DriverState) (port_id queue_id : Nat)
    (tx_pkts : List Nat) (nb_pkts : Nat) : Nat × List Nat × DriverState :=
  rte_eth_tx_burst s port_id queue_id tx_pkts nb_pkts

/-- C ABI boundary of wrapper.h: every scalar parameter of
`wrte_eth_rx_burst` is declared `uint16_t`, so a caller-supplied integer is
converted modulo 2^16 before the wrapper body runs. -/
def wrte_eth_rx_burst_u16 (s : DriverState) (port_id queue_id : Nat)
    (rx_pkts : List Nat) (nb_pkts : Nat) : Nat × List Nat × DriverState :=
  wrte_eth_rx_burst s (port_id % UINT16_MOD) (queue_id % UINT16_MOD)
    rx_pkts (nb_pkts % UINT16_MOD)

/-- C ABI boundary of wrapper.h: every scalar parameter of
`wrte_eth_tx_burst` is declared `uint16_t`, so a caller-supplied integer is
converted modulo 2^16 before the wrapper body runs. -/
def wrte_eth_tx_burst_u16 (s : DriverState) (port_id queue_id : Nat)
    (tx_pkts : List Nat) (nb_pkts : Nat) : Nat × List Nat × DriverState :=
  wrte_eth_tx_burst s (port_id % UINT16_MOD) (queue_id % UINT16_MOD)
    tx_pkts (nb_pkts % UINT16_MOD)

/-- Operations of one execution context that touch the error slot: a driver
call that failed recording error `e`, a driver call that did not fail, and a
read of the slot through `wrte_errno`. -/
inductive CtxOp where
  | fail (e : Int)
  | ok
  | read

/-- Whether a context operation is a failing driver call. -/
def CtxOp.isFail : CtxOp → Bool
  | .fail _ => true
  | _ => false

/-- Whether a context operation is a read of the error slot. -/
def CtxOp.isRead : CtxOp → Bool
  | .read => true
  | _ => false

/-- The error value a context operation records, if any. -/
def CtxOp.failVal : CtxOp → Option Int
  | .fail e => some e
  | _ => none

/-- Modelled from the spec: effect of one context operation on the error
slot.  A failing call overwrites the slot; a successful call leaves it
alone; a read through wrapper.c's `wrte_errno` leaves it alone. -/
def ctxStep (e : Int) : CtxOp → Int
  | .fail e2 => e2
  | .ok => e
  | .read => e

/-- Error-slot value after a context has run `ops`, starting from the
no-error value 0 at context start. -/
def ctxErrno (ops : List CtxOp) : Int :=
  ops.foldl ctxStep 0

/-- The error values recorded along a context history, in order. -/
def recordedErrors (ops : List CtxOp) : List Int :=
  ops.filterMap CtxOp.failVal

/-- The error value most recently recorded along a context history, or 0
when nothing has failed. -/
def lastRecorded (ops : List CtxOp) : Int :=
  (recordedErrors ops).getLastD 0

/-- Whether nothing has failed since the last read of the error slot
(or since context start, when the slot was never read). -/
def noFailSinceLastRead (ops : List CtxOp) : Bool :=
  (ops.reverse.takeWhile fun o => !o.isRead).all fun o => !o.isFail

/-- A driver state with nothing configured and an empty error slot. -/
def initState : DriverState where
  rxConfigured := fun _ _ => false
  txConfigured := fun _ _ => false
  rxPending := fun _ _ => []
  txRoom := fun _ _ => 0
  txSubmitted := fun _ _ => []
  errnoSlot := 0

/-- Driver state of a context after running `ops` from context start. -/
def ctxState (ops : List CtxOp) : DriverState :=
  { initState with errnoSlot := ctxErrno ops }

/-- From src/dpdk-sys/c/wrapper.h: `enum wrte_eth_tx_offload : uint64_t`,
the closed set of 14 transmit offload flags. -/
inductive wrte_eth_tx_offload where
  | VLAN_INSERT
  | IPV4_CKSUM
  | UDP_CKSUM
  | TCP_CKSUM
  | SCTP_CKSUM
  | TCP_TSO
  | UDP_TSO
  | OUTER_IPV4_CKSUM
  | QINQ_INSERT
  | VXLAN_TNL_TSO
  | GRE_TNL_TSO
  | IPIP_TNL_TSO
  | GENEVE_TNL_TSO
  | MACSEC_INSERT
deriving DecidableEq, Fintype

/-- Modelled from the spec: the driver's `RTE_BIT64(k)` value, one bit of a
64-bit domain (`UINT64_C(1) << k`, reduced to 64 bits). -/
def RTE_BIT64 (k : Nat) : Nat :=
  (1 <<< k) % 2 ^ 64

/-- Modelled from the spec: the 64-bit value of each offload flag.  Each
flag occupies one distinct bit of the 64-bit domain, in the driver's
declaration order (`RTE_ETH_TX_OFFLOAD_VLAN_INSERT = RTE_BIT64(0)`, ...,
`RTE_ETH_TX_OFFLOAD_MACSEC_INSERT = RTE_BIT64(13)`). -/
def offloadVal : wrte_eth_tx_offload → Nat
  | .VLAN_INSERT => RTE_BIT64 0
  | .IPV4_CKSUM => RTE_BIT64 1
  | .UDP_CKSUM => RTE_BIT64 2
  | .TCP_CKSUM => RTE_BIT64 3
  | .SCTP_CKSUM => RTE_BIT64 4
  | .TCP_TSO => RTE_BIT64 5
  | .UDP_TSO => RTE_BIT64 6
  | .OUTER_IPV4_CKSUM => RTE_BIT64 7
  | .QINQ_INSERT => RTE_BIT64 8
  | .VXLAN_TNL_TSO => RTE_BIT64 9
  | .GRE_TNL_TSO => RTE_BIT64 10
  | .IPIP_TNL_TSO => RTE_BIT64 11
  | .GENEVE_TNL_TSO => RTE_BIT64 12
  | .MACSEC_INSERT => RTE_BIT64 13

/-- Combination rule of wrapper.h's bitfield comment: union these to enable
multiple offloads (bitwise OR of the 64-bit values). -/
def offloadUnion (a b : Nat) : Nat :=
  a ||| b

/-- Whether flag `f` tests as present in a combined request value `v`. -/
def offloadTest (v : Nat) (f : wrte_eth_tx_offload) : Bool :=
  v &&& offloadVal f != 0

/-- A driver state with port 0 queue 0 configured both ways, three pending
receive handles and transmit-ring room for two descriptors. -/
def demoState : DriverState where
  rxConfigured := fun p q => p == 0 && q == 0
  txConfigured := fun p q => p == 0 && q == 0
  rxPending := fun p q => if p == 0 && q == 0 then [1, 2, 3] else []
  txRoom := fun _ _ => 2
  txSubmitted := fun _ _ => []
  errnoSlot := 0

theorem take_append_eq (l1 l2 : List Nat) (n : Nat) (h : l1.length = n) :
    (l1 ++ l2).take n = l1 := by
  subst h
  exact List.take_left l1 l2

theorem drop_append_eq (l1 l2 : List Nat) (n : Nat) (h : l1.length = n) :
    (l1 ++ l2).drop n = l2 := by
  subst h
  exact List.drop_left l1 l2

theorem rx_burst_count_le (s : DriverState) (port queue : Nat)
    (batch : List Nat) (nb : Nat) :
    (rte_eth_rx_burst s port queue batch nb).1 ≤ nb := by
  unfold rte_eth_rx_burst
  split
  · exact Nat.min_le_right _ _
  · exact Nat.zero_le _

theorem tx_burst_count_le (s : DriverState) (port queue : Nat)
    (batch : List Nat) (nb : Nat) :
    (rte_eth_tx_burst s port queue batch nb).1 ≤ nb := by
  unfold rte_eth_tx_burst
  split
  · exact Nat.min_le_right _ _
  · exact Nat.zero_le _

theorem foldl_ctxStep_eq_getLastD (ops : List CtxOp) :
    ∀ e : Int, ops.foldl ctxStep e = (ops.filterMap CtxOp.failVal).getLastD e := by
  induction ops with
  | nil => intro e; rfl
  | cons op rest ih =>
    intro e
    cases op with
    | fail v =>
      rw [List.foldl_cons]
      have h2 : (CtxOp.fail v :: rest).filterMap CtxOp.failVal =
          v :: rest.filterMap CtxOp.failVal := rfl
      rw [h2, List.getLastD_cons]
      exact ih v
    | ok =>
      rw [List.foldl_cons]
      exact ih e
    | read =>
      rw [List.foldl_cons]
      exact ih e

/-- Claim C1: for every (port, queue) pair and every requested count,
`receive_burst` returns an actual count with 0 ≤ actual ≤ requested, fills
only the first actual-count slots of the batch (every slot from the actual
count on keeps its prior contents), and a zero result is a normal return of
the total function, not an error. -/
theorem receive_burst_count_and_only_first_slots (s : DriverState) (port queue : Nat)
    (batch : List Nat) (nb : Nat) :
    0 ≤ (wrte_eth_rx_burst s port queue batch nb).1 ∧
    (wrte_eth_rx_burst s port queue batch nb).1 ≤ nb ∧
    ((wrte_eth_rx_burst s port queue batch nb).2.1).drop
        (wrte_eth_rx_burst s port queue batch nb).1 =
      batch.drop (wrte_eth_rx_burst s port queue batch nb).1 := by
  refine ⟨Nat.zero_le _, rx_burst_count_le s port queue batch nb, ?_⟩
  show ((rte_eth_rx_burst s port queue batch nb).2.1).drop
      (rte_eth_rx_burst s port queue batch nb).1 =
    batch.drop (rte_eth_rx_burst s port queue batch nb).1
  unfold rte_eth_rx_burst
  split
  · refine drop_append_eq _ _ _ ?_
    simp [List.length_take, Nat.min_eq_left (Nat.min_le_left _ _)]
  · rfl

/-- Claim C4: the gateway operations are pure pass-throughs of the driver
burst primitives — for all arguments each wrapper returns exactly the value
of one driver call on the same (port, queue, batch, requested count), with
no retry, clamping or argument transformation. -/
theorem gateway_pass_through :
    (∀ (s : DriverState) (port queue : Nat) (batch : List Nat) (nb : Nat),
      wrte_eth_rx_burst s port queue batch nb =
        rte_eth_rx_burst s port queue batch nb) ∧
    (∀ (s : DriverState) (port queue : Nat) (batch : List Nat) (nb : Nat),
      wrte_eth_tx_burst s port queue batch nb =
        rte_eth_tx_burst s port queue batch nb) :=
  ⟨fun _ _ _ _ _ => rfl, fun _ _ _ _ _ => rfl⟩

/-- Claim C10: reading the error code is non-destructive — `wrte_errno`
leaves the state unchanged, so two consecutive reads with no intervening
fallible operation return the same value; appending a read to a context
history never changes the slot. -/
theorem last_error_read_non_destructive (s : DriverState) (ops : List CtxOp) :
    (wrte_errno (wrte_errno s).2).1 = (wrte_errno s).1 ∧
    (wrte_errno s).2 = s ∧
    ctxErrno (ops ++ [CtxOp.read]) = ctxErrno ops := by
  refine ⟨rfl, rfl, ?_⟩
  simp [ctxErrno, ctxStep]

/-- Claim C2: on a configured queue, for a batch holding the requested
count of caller-owned handles, `transmit_burst` returns an actual count
with 0 ≤ actual ≤ requested, leaves the caller's array unmodified, hands
the driver exactly the first actual-count handles (they are appended to the
queue's submitted sequence), and the remaining handles are exactly the
untouched tail of the batch. -/
theorem transmit_burst_accepts_exact_first_slots (s : DriverState) (port queue : Nat)
    (batch : List Nat) (nb : Nat)
    (hconf : s.txConfigured port queue = true) (hcap : nb ≤ batch.length) :
    (wrte_eth_tx_burst s port queue batch nb).1 ≤ nb ∧
    (wrte_eth_tx_burst s port queue batch nb).2.1 = batch ∧
    ((wrte_eth_tx_burst s port queue batch nb).2.2).txSubmitted port queue =
      s.txSubmitted port queue ++
        batch.take (wrte_eth_tx_burst s port queue batch nb).1 ∧
    (batch.take (wrte_eth_tx_burst s port queue batch nb).1).length =
      (wrte_eth_tx_burst s port queue batch nb).1 ∧
    batch.take (wrte_eth_tx_burst s port queue batch nb).1 ++
        batch.drop (wrte_eth_tx_burst s port queue batch nb).1 = batch := by
  refine ⟨tx_burst_count_le s port queue batch nb, ?_, ?_, ?_, List.take_append_drop _ _⟩
  · show (rte_eth_tx_burst s port queue batch nb).2.1 = batch
    unfold rte_eth_tx_burst
    split
    · rfl
    · rfl
  · show ((rte_eth_tx_burst s port queue batch nb).2.2).txSubmitted port queue =
      s.txSubmitted port queue ++
        batch.take (rte_eth_tx_burst s port queue batch nb).1
    unfold rte_eth_tx_burst
    simp [hconf]
  · show (batch.take (rte_eth_tx_burst s port queue batch nb).1).length =
      (rte_eth_tx_burst s port queue batch nb).1
    have h := tx_burst_count_le s port queue batch nb
    simp [List.length_take, Nat.min_eq_left (Nat.le_trans h hcap)]

theorem transmit_burst_accepts_exact_first_slots_witness :
    demoState.txConfigured 0 0 = true ∧
    (3 : Nat) ≤ ([10, 20, 30] : List Nat).length ∧
    ((wrte_eth_tx_burst demoState 0 0 [10, 20, 30] 3).1 ≤ 3 ∧
     (wrte_eth_tx_burst demoState 0 0 [10, 20, 30] 3).2.1 = [10, 20, 30] ∧
     ((wrte_eth_tx_burst demoState 0 0 [10, 20, 30] 3).2.2).txSubmitted 0 0 =
       demoState.txSubmitted 0 0 ++
         ([10, 20, 30] : List Nat).take
           (wrte_eth_tx_burst demoState 0 0 [10, 20, 30] 3).1 ∧
     (([10, 20, 30] : List Nat).take
         (wrte_eth_tx_burst demoState 0 0 [10, 20, 30] 3).1).length =
       (wrte_eth_tx_burst demoState 0 0 [10, 20, 30] 3).1 ∧
     ([10, 20, 30] : List Nat).take
         (wrte_eth_tx_burst demoState 0 0 [10, 20, 30] 3).1 ++
       ([10, 20, 30] : List Nat).drop
         (wrte_eth_tx_burst demoState 0 0 [10, 20, 30] 3).1 = [10, 20, 30]) :=
  ⟨rfl, by decide,
    transmit_burst_accepts_exact_first_slots demoState 0 0 [10, 20, 30] 3 rfl (by decide)⟩

/-- Claim C5: on a configured queue whose pending handles are distinct,
after `receive_burst` the first actual-count batch slots are exactly the
handles drawn from the head of the queue, they are pairwise distinct, none
of them remains in the queue afterwards (the caller owns them exclusively),
and every slot from the actual count on keeps its prior contents. -/
theorem receive_burst_distinct_owned_rest_untouched (s : DriverState) (port queue : Nat)
    (batch : List Nat) (nb : Nat)
    (hconf : s.rxConfigured port queue = true)
    (hnd : (s.rxPending port queue).Nodup) :
    ((wrte_eth_rx_burst s port queue batch nb).2.1).take
        (wrte_eth_rx_burst s port queue batch nb).1 =
      (s.rxPending port queue).take (wrte_eth_rx_burst s port queue batch nb).1 ∧
    (((wrte_eth_rx_burst s port queue batch nb).2.1).take
        (wrte_eth_rx_burst s port queue batch nb).1).Nodup ∧
    List.Disjoint
      (((wrte_eth_rx_burst s port queue batch nb).2.1).take
        (wrte_eth_rx_burst s port queue batch nb).1)
      (((wrte_eth_rx_burst s port queue batch nb).2.2).rxPending port queue) ∧
    ((wrte_eth_rx_burst s port queue batch nb).2.1).drop
        (wrte_eth_rx_burst s port queue batch nb).1 =
      batch.drop (wrte_eth_rx_burst s port queue batch nb).1 := by
  have hlen : ((s.rxPending port queue).take
      (min (s.rxPending port queue).length nb)).length =
      min (s.rxPending port queue).length nb := by
    simp [List.length_take, Nat.min_eq_left (Nat.min_le_left _ _)]
  have hfill : ((wrte_eth_rx_burst s port queue batch nb).2.1).take
      (wrte_eth_rx_burst s port queue batch nb).1 =
      (s.rxPending port queue).take (wrte_eth_rx_burst s port queue batch nb).1 := by
    show ((rte_eth_rx_burst s port queue batch nb).2.1).take
        (rte_eth_rx_burst s port queue batch nb).1 =
      (s.rxPending port queue).take (rte_eth_rx_burst s port queue batch nb).1
    unfold rte_eth_rx_burst
    simp only [hconf, if_true]
    exact take_append_eq _ _ _ hlen
  refine ⟨hfill, ?_, ?_, ?_⟩
  · rw [hfill]
    exact hnd.sublist (List.take_sublist _ _)
  · rw [hfill]
    have hpend : ((wrte_eth_rx_burst s port queue batch nb).2.2).rxPending port queue =
        (s.rxPending port queue).drop (wrte_eth_rx_burst s port queue batch nb).1 := by
      show ((rte_eth_rx_burst s port queue batch nb).2.2).rxPending port queue =
        (s.rxPending port queue).drop (rte_eth_rx_burst s port queue batch nb).1
      unfold rte_eth_rx_burst
      simp [hconf]
    rw [hpend]
    exact List.disjoint_take_drop hnd (Nat.le_refl _)
  · show ((rte_eth_rx_burst s port queue batch nb).2.1).drop
        (rte_eth_rx_burst s port queue batch nb).1 =
      batch.drop (rte_eth_rx_burst s port queue batch nb).1
    unfold rte_eth_rx_burst
    simp only [hconf, if_true]
    exact drop_append_eq _ _ _ hlen

theorem receive_burst_distinct_owned_rest_untouched_witness :
    demoState.rxConfigured 0 0 = true ∧
    (demoState.rxPending 0 0).Nodup ∧
    (((wrte_eth_rx_burst demoState 0 0 [7, 8, 9, 10] 2).2.1).take
        (wrte_eth_rx_burst demoState 0 0 [7, 8, 9, 10] 2).1 =
      (demoState.rxPending 0 0).take
        (wrte_eth_rx_burst demoState 0 0 [7, 8, 9, 10] 2).1 ∧
     (((wrte_eth_rx_burst demoState 0 0 [7, 8, 9, 10] 2).2.1).take
        (wrte_eth_rx_burst demoState 0 0 [7, 8, 9, 10] 2).1).Nodup ∧
     List.Disjoint
       (((wrte_eth_rx_burst demoState 0 0 [7, 8, 9, 10] 2).2.1).take
         (wrte_eth_rx_burst demoState 0 0 [7, 8, 9, 10] 2).1)
       (((wrte_eth_rx_burst demoState 0 0 [7, 8, 9, 10] 2).2.2).rxPending 0 0) ∧
     ((wrte_eth_rx_burst demoState 0 0 [7, 8, 9, 10] 2).2.1).drop
         (wrte_eth_rx_burst demoState 0 0 [7, 8, 9, 10] 2).1 =
       ([7, 8, 9, 10] : List Nat).drop
         (wrte_eth_rx_burst demoState 0 0 [7, 8, 9, 10] 2).1) :=
  ⟨rfl, by decide,
    receive_burst_distinct_owned_rest_untouched demoState 0 0 [7, 8, 9, 10] 2 rfl (by decide)⟩

/-- Claim C3, counterexample: the claim says `last_error` returns the
zero/no-error value whenever nothing has failed since the last time it was
read.  In the history [fail 5, read] nothing has failed since the last
read, yet `wrte_errno` returns 5, not 0 — reading does not clear the slot. -/
theorem last_error_not_cleared_by_read :
    noFailSinceLastRead [CtxOp.fail 5, CtxOp.read] = true ∧
    (wrte_errno (ctxState [CtxOp.fail 5, CtxOp.read])).1 = 5 ∧
    (5 : Int) ≠ 0 :=
  ⟨rfl, rfl, by decide⟩

/-- Claim C3 (amended): `last_error` takes no input, has no precondition,
cannot itself fail, leaves the context unchanged, and returns the error
value most recently recorded for the calling execution context — the
zero/no-error value when nothing has failed since context start (reading
does not clear the slot). -/
theorem last_error_returns_last_recorded (ops : List CtxOp) :
    (wrte_errno (ctxState ops)).1 = lastRecorded ops ∧
    (wrte_errno (ctxState ops)).2 = ctxState ops := by
  refine ⟨?_, rfl⟩
  show ctxErrno ops = lastRecorded ops
  exact foldl_ctxStep_eq_getLastD ops 0

/-- Claim C6: combining offload flags is bitwise union over the 64-bit flag
values; for all declared flags A and B the union is commutative and
idempotent, and it stays inside the 64-bit domain. -/
theorem offload_union_comm_idem :
    (∀ A B : wrte_eth_tx_offload,
      offloadUnion (offloadVal A) (offloadVal B) =
        offloadUnion (offloadVal B) (offloadVal A)) ∧
    (∀ A : wrte_eth_tx_offload,
      offloadUnion (offloadVal A) (offloadVal A) = offloadVal A) ∧
    (∀ A B : wrte_eth_tx_offload,
      offloadUnion (offloadVal A) (offloadVal B) < 2 ^ 64) := by
  refine ⟨?_, ?_, ?_⟩ <;> decide

/-- Claim C7: each of the 14 declared offload flags is a distinct power of
two representable in 64 bits, and when any two flags are combined into one
value each original flag's bit independently tests as present. -/
theorem offload_flags_single_distinct_bits :
    (∀ A : wrte_eth_tx_offload,
      ((List.range 64).any fun k => offloadVal A == 2 ^ k) = true) ∧
    (∀ A B : wrte_eth_tx_offload, A ≠ B → offloadVal A ≠ offloadVal B) ∧
    (∀ A B : wrte_eth_tx_offload,
      offloadTest (offloadUnion (offloadVal A) (offloadVal B)) A = true ∧
      offloadTest (offloadUnion (offloadVal A) (offloadVal B)) B = true) := by
  refine ⟨?_, ?_, ?_⟩ <;> decide

theorem offload_flags_single_distinct_bits_witness :
    wrte_eth_tx_offload.IPV4_CKSUM ≠ wrte_eth_tx_offload.TCP_TSO ∧
    offloadVal wrte_eth_tx_offload.IPV4_CKSUM ≠
      offloadVal wrte_eth_tx_offload.TCP_TSO :=
  ⟨by decide, offload_flags_single_distinct_bits.2.1 _ _ (by decide)⟩

/-- Claim C8: the core validates nothing — even for an unconfigured
(invalid) (port, queue) pair each wrapper forwards the identifiers
unchanged to the driver layer and returns exactly the driver's result,
which at that layer is the rejection (count 0, no effect). -/
theorem no_validation_forwarded_to_driver (s : DriverState) (port queue : Nat)
    (batch : List Nat) (nb : Nat)
    (hrx : s.rxConfigured port queue = false)
    (htx : s.txConfigured port queue = false) :
    wrte_eth_rx_burst s port queue batch nb =
      rte_eth_rx_burst s port queue batch nb ∧
    wrte_eth_tx_burst s port queue batch nb =
      rte_eth_tx_burst s port queue batch nb ∧
    wrte_eth_rx_burst s port queue batch nb = (0, batch, s) ∧
    wrte_eth_tx_burst s port queue batch nb = (0, batch, s) := by
  refine ⟨rfl, rfl, ?_, ?_⟩
  · show rte_eth_rx_burst s port queue batch nb = (0, batch, s)
    unfold rte_eth_rx_burst
    simp [hrx]
  · show rte_eth_tx_burst s port queue batch nb = (0, batch, s)
    unfold rte_eth_tx_burst
    simp [htx]

theorem no_validation_forwarded_to_driver_witness :
    initState.rxConfigured 70000 5 = false ∧
    initState.txConfigured 70000 5 = false ∧
    (wrte_eth_rx_burst initState 70000 5 [9] 4 =
       rte_eth_rx_burst initState 70000 5 [9] 4 ∧
     wrte_eth_tx_burst initState 70000 5 [9] 4 =
       rte_eth_tx_burst initState 70000 5 [9] 4 ∧
     wrte_eth_rx_burst initState 70000 5 [9] 4 = (0, [9], initState) ∧
     wrte_eth_tx_burst initState 70000 5 [9] 4 = (0, [9], initState)) :=
  ⟨rfl, rfl, no_validation_forwarded_to_driver initState 70000 5 [9] 4 rfl rfl⟩

/-- Claim C9: at the public interface every scalar is uint16_t — a
caller-supplied port, queue or requested count is taken modulo 2^16 at the
boundary, so the effective request never exceeds 65535, and the returned
actual count is at most the reduced request and hence at most 65535. -/
theorem burst_interface_16_bit (s : DriverState) (port queue : Nat)
    (batch : List Nat) (nb : Nat) :
    (wrte_eth_rx_burst_u16 s port queue batch nb).1 ≤ nb % UINT16_MOD ∧
    (wrte_eth_tx_burst_u16 s port queue batch nb).1 ≤ nb % UINT16_MOD ∧
    nb % UINT16_MOD ≤ 65535 ∧
    (wrte_eth_rx_burst_u16 s port queue batch nb).1 ≤ 65535 ∧
    (wrte_eth_tx_burst_u16 s port queue batch nb).1 ≤ 65535 ∧
    wrte_eth_rx_burst_u16 s port queue batch nb =
      wrte_eth_rx_burst s (port % UINT16_MOD) (queue % UINT16_MOD)
        batch (nb % UINT16_MOD) ∧
    wrte_eth_tx_burst_u16 s port queue batch nb =
      wrte_eth_tx_burst s (port % UINT16_MOD) (queue % UINT16_MOD)
        batch (nb % UINT16_MOD) := by
  have hrx : (wrte_eth_rx_burst_u16 s port queue batch nb).1 ≤ nb % UINT16_MOD :=
    rx_burst_count_le s (port % UINT16_MOD) (queue % UINT16_MOD)
      batch (nb % UINT16_MOD)
  have htx : (wrte_eth_tx_burst_u16 s port queue batch nb).1 ≤ nb % UINT16_MOD :=
    tx_burst_count_le s (port % UINT16_MOD) (queue % UINT16_MOD)
      batch (nb % UINT16_MOD)
  have hmod : nb % UINT16_MOD ≤ 65535 :=
    Nat.lt_succ_iff.mp (Nat.mod_lt nb (by decide))
  exact ⟨hrx, htx, hmod, Nat.le_trans hrx hmod, Nat.le_trans htx hmod, rfl, rfl⟩

end Dataplane
